import Mathlib

/-!
Shallow embedding of the detection-and-scoring pipeline of the
crypto-chain-alysis repository (files `enhanced_analyzer.py` and
`enhanced_monitor.py`), together with theorems settling the frozen claims
about it.

Modelling conventions:
* Python floats are modelled as exact rationals (`ℚ`); every constant in the
  scoring rules is a multiple of 1/10, and all threshold comparisons in the
  source are exact at this granularity.
* Bytecode is a list of byte values (`List ℕ`); the Python `bytes.hex()`
  conversion is `bytesToHex`.
* Network collaborators (RPC `get_code`, `eth_call`, the verification
  service) are passed in as `Except String _` values: `.error e` models the
  call raising an exception with message `e`.
* Case-insensitive regex search for a group of literal alternatives
  (Python `re.search('(?i)(a|b|c)', s)`) is modelled as: some alternative is
  a substring of the lower-cased string.
-/

/-- Here `startsWithL needle hay` is true iff `needle` is an initial segment of `hay`. -/
def startsWithL [DecidableEq α] : List α → List α → Bool
  | [], _ => true
  | _ :: _, [] => false
  | a :: as, b :: bs => decide (a = b) && startsWithL as bs

/-- Here `containsL needle hay` is true iff `needle` occurs contiguously inside `hay`
(the meaning of Python's `needle in hay` on strings and bytes). -/
def containsL [DecidableEq α] (needle : List α) : List α → Bool
  | [] => startsWithL needle []
  | c :: cs => startsWithL needle (c :: cs) || containsL needle cs

/-- Substring test on strings: Python's `needle in hay`. -/
def containsS (needle hay : String) : Bool :=
  containsL needle.toList hay.toList

/-- Byte-list version of the substring test: Python's `pattern in code` on `bytes`. -/
def containsB (needle hay : List ℕ) : Bool :=
  containsL needle hay

/-- Lower-casing of a string, modelling Python's `str.lower` / `(?i)` matching
on the ASCII text the patterns consist of. -/
def lowerStr (s : String) : String :=
  String.mk (s.toList.map Char.toLower)

/-- One hexadecimal digit (lower case), as produced by Python's `bytes.hex()`. -/
def hexDigit (n : ℕ) : Char :=
  if n < 10 then Char.ofNat (48 + n) else Char.ofNat (87 + n)

/-- Python's `bytes.hex()`: two lower-case hex digits per byte, no `0x` prefix. -/
def bytesToHex (bs : List ℕ) : String :=
  String.mk (bs.flatMap (fun b => [hexDigit (b / 16 % 16), hexDigit (b % 16)]))

/-- Python's `str(e)[:50]` truncation used in error reasons. -/
def strTrunc (n : ℕ) (s : String) : String :=
  String.mk (s.toList.take n)

/-! ## Data model (`enhanced_analyzer.py`) -/

/-- The `ContractAnalysis` dataclass of `enhanced_analyzer.py`. -/
structure ContractAnalysis where
  has_mint_function : Bool
  has_burn_function : Bool
  has_pause_function : Bool
  ownership_renounced : Bool
  liquidity_locked : Bool
  max_transaction_limit : Option ℤ
  max_wallet_limit : Option ℤ
  honeypot_risk : ℚ
  contract_verified : Bool
  proxy_contract : Bool
deriving DecidableEq, Repr

/-- The two honeypot bytecode fingerprints of `AdvancedRiskAnalyzer.__init__`:
`b'\x8d\xa5\xcb[\x00\x00\x00\x00'` and `b'\x63\x91\x3d\x29\x14'`. -/
def honeypot_patterns : List (List ℕ) :=
  [[0x8d, 0xa5, 0xcb, 0x5b, 0x00, 0x00, 0x00, 0x00],
   [0x63, 0x91, 0x3d, 0x29, 0x14]]

/-- The known-scammer denylist of `AdvancedRiskAnalyzer.__init__`. -/
def known_scammer_addresses : List String :=
  ["0x0000000000000000000000000000000000000000"]

/-- The legitimate-project regex families of `AdvancedRiskAnalyzer.__init__`,
each family a list of case-insensitive literal alternatives. -/
def legitimate_patterns : List (List String) :=
  [["uniswap", "sushiswap", "pancakeswap"],
   ["compound", "aave", "maker"],
   ["chainlink", "polygon", "avalanche"]]

/-- Python's `re.search` with pattern `(?i)(a|b|c)` for a family of literal alternatives:
some alternative occurs in the lower-cased string. -/
def patSearch (family : List String) (s : String) : Bool :=
  family.any fun kw => containsL kw.toList (lowerStr s).toList

/-- From `AdvancedRiskAnalyzer._analyze_honeypot_risk`: the `for pattern in
self.honeypot_patterns` loop, threading the mutable `risk_score`. -/
def honeypotLoop : List (List ℕ) → List ℕ → ℚ → ℚ
  | [], _, r => r
  | p :: ps, code, r => honeypotLoop ps code (if containsB p code then r + 0.3 else r)

/-- Embeds `AdvancedRiskAnalyzer._analyze_honeypot_risk` (lines 107-119):
0.3 per matched fingerprint, +0.2 when `len(code) > 50000`, then
`min(risk_score, 1.0)`. -/
def analyze_honeypot_risk (code : List ℕ) : ℚ :=
  let risk_score := honeypotLoop honeypot_patterns code 0.0
  let risk_score := if code.length > 50000 then risk_score + 0.2 else risk_score
  min risk_score 1.0

/-- Embeds `AdvancedRiskAnalyzer._check_ownership_renounced`: the
`renounceOwnership()` selector occurs in the hex dump. -/
def check_ownership_renounced (code_hex : String) : Bool :=
  containsS "715018a6" code_hex

/-- Embeds `AdvancedRiskAnalyzer._check_proxy_pattern`: either proxy fingerprint
occurs in the hex dump. -/
def check_proxy_pattern (code_hex : String) : Bool :=
  ["3660008037", "36103d601c"].any fun pattern => containsS pattern code_hex

/-- Embeds `AdvancedRiskAnalyzer._check_contract_verification`: the verification
service either reports a boolean or fails; its own `except` clause turns any
failure into `False`, so it never raises. -/
def check_contract_verification (svc : Except String Bool) : Bool :=
  match svc with
  | .ok b => b
  | .error _ => false

/-- The zero-signal `ContractAnalysis` returned by the `except` branch of
`analyze_contract_code`. -/
def zeroContractAnalysis : ContractAnalysis :=
  { has_mint_function := false
    has_burn_function := false
    has_pause_function := false
    ownership_renounced := false
    liquidity_locked := false
    max_transaction_limit := none
    max_wallet_limit := none
    honeypot_risk := 0.0
    contract_verified := false
    proxy_contract := false }

/-- Embeds `AdvancedRiskAnalyzer.analyze_contract_code` (lines 50-99).
`getCode` is the `web3.eth.get_code` collaborator (the only statement in the
`try` block that can raise); `svc` is the verification-service collaborator
consumed by `_check_contract_verification`. -/
def analyze_contract_code (getCode : Except String (List ℕ))
    (svc : Except String Bool) : ContractAnalysis :=
  match getCode with
  | .error _ => zeroContractAnalysis
  | .ok code =>
      let code_hex := bytesToHex code
      { has_mint_function := containsS "40c10f19" code_hex
        has_burn_function := containsS "42966c68" code_hex
        has_pause_function := containsS "8456cb59" code_hex
        ownership_renounced := check_ownership_renounced code_hex
        liquidity_locked := false
        max_transaction_limit := none
        max_wallet_limit := none
        honeypot_risk := analyze_honeypot_risk code
        contract_verified := check_contract_verification svc
        proxy_contract := check_proxy_pattern code_hex }

/-! ## Social / holder / trading collaborator results -/

/-- The placeholder dictionary built by
`AdvancedRiskAnalyzer.check_social_signals` (lines 222-242). -/
structure SocialSignals where
  twitter_followers : ℕ
  telegram_members : ℕ
  discord_members : ℕ
  reddit_subscribers : ℕ
  website_exists : Bool
  whitepaper_exists : Bool
  github_activity : ℕ
  social_sentiment : ℚ
deriving DecidableEq, Repr

/-- Embeds `check_social_signals`: on success the fixed placeholder dictionary, on an
exception the empty dictionary (`none`). -/
def check_social_signals (ok : Bool) : Option SocialSignals :=
  if ok then
    some { twitter_followers := 0, telegram_members := 0, discord_members := 0,
           reddit_subscribers := 0, website_exists := false,
           whitepaper_exists := false, github_activity := 0,
           social_sentiment := 0.0 }
  else none

/-- Models `social_data.get('website_exists', False)`. -/
def socialGetWebsite : Option SocialSignals → Bool
  | some s => s.website_exists
  | none => false

/-- Models `social_data.get('twitter_followers', 0)`. -/
def socialGetTwitter : Option SocialSignals → ℕ
  | some s => s.twitter_followers
  | none => 0

/-- Result dictionary of `analyze_holder_distribution`; `concentration`
models the `concentration_ratio` key. -/
structure HolderMetrics where
  unique_holders : ℕ
  total_transfers : ℕ
  concentration : ℚ
deriving DecidableEq, Repr

/-- Models the concentration lookup with default 0 (the call returns an empty dictionary on
failure, modelled as `none`). -/
def holderGetConc : Option HolderMetrics → ℚ
  | some h => h.concentration
  | none => 0

/-- Models `holder_data.get('unique_holders', 0)`. -/
def holderGetUnique : Option HolderMetrics → ℕ
  | some h => h.unique_holders
  | none => 0

/-- Result dictionary of `analyze_trading_patterns`. -/
structure TradingMetrics where
  transaction_count : ℕ
  unique_traders : ℕ
  wash_trading_risk : ℚ
  bot_activity_detected : Bool
deriving DecidableEq, Repr

/-- Models `trading_data.get('wash_trading_risk', 0)`. -/
def tradeGetWash : Option TradingMetrics → ℚ
  | some t => t.wash_trading_risk
  | none => 0

/-- Models `trading_data.get('bot_activity_detected', False)`. -/
def tradeGetBot : Option TradingMetrics → Bool
  | some t => t.bot_activity_detected
  | none => false

/-! ## `EnhancedTokenAnalyzer.comprehensive_analysis` (lines 291-410) -/

/-- The suspicious-name regex families of `comprehensive_analysis` step 7. -/
def suspicious_patterns : List (List String) :=
  [["elon", "musk", "tesla", "doge", "shib", "inu"],
   ["moon", "rocket", "pump", "safe", "secure"],
   ["x100", "1000x", "lambo", "gem"],
   ["pepe", "wojak", "chad"]]

/-- One additive scoring rule of `comprehensive_analysis`: when `cond` holds,
append the factor text and add the weight (`risk_factors.append(...)`;
`risk_score += w`). -/
def ruleStep (cond : Bool) (text : String) (w : ℚ) (st : ℚ × List String) :
    ℚ × List String :=
  if cond then (st.1 + w, st.2 ++ [text]) else st

/-- The `for pattern in suspicious_patterns` loop of `comprehensive_analysis`:
on the first matching family, append the factor, add 0.2 and `break`. -/
def suspiciousLoop (name symbol : String) :
    List (List String) → ℚ × List String → ℚ × List String
  | [], st => st
  | p :: ps, st =>
      if patSearch p name || patSearch p symbol then
        (st.1 + 0.2, st.2 ++ ["Suspicious name/symbol pattern"])
      else suspiciousLoop name symbol ps st

/-- The `for pattern in self.risk_analyzer.legitimate_patterns` loop of
`comprehensive_analysis`: on the first matching family, subtract 0.2 (no
factor text) and `break`. -/
def legitLoop (name symbol : String) :
    List (List String) → ℚ × List String → ℚ × List String
  | [], st => st
  | p :: ps, st =>
      if patSearch p name || patSearch p symbol then (st.1 - 0.2, st.2)
      else legitLoop name symbol ps st

/-- The supply-analysis `if/elif` of `comprehensive_analysis` step 8. -/
def supplyStep (total_supply : ℕ) (st : ℚ × List String) : ℚ × List String :=
  if total_supply > 10 ^ 21 then
    (st.1 + 0.3, st.2 ++ ["Extremely high token supply"])
  else if total_supply > 10 ^ 18 then
    (st.1 + 0.1, st.2 ++ ["Very high token supply"])
  else st

/-- Embeds `EnhancedTokenAnalyzer.comprehensive_analysis` (lines 291-410), with the
collaborator results passed in: `ca` is the `analyze_contract_code` result,
`holder`/`trading` the holder- and trading-metric dictionaries (`none` models
the `{}` returned on collaborator failure), `socialOk` whether
`check_social_signals` reached its normal return, `creator_tx_count` /
`creator_balance_wei` the creator-account lookups, and `creator_address`,
`name`, `symbol`, `total_supply` the direct arguments.  Returns the pair
(`min(risk_score, 1.0)`, `risk_factors`). -/
def comprehensive_analysis (ca : ContractAnalysis)
    (holder : Option HolderMetrics) (socialOk : Bool)
    (trading : Option TradingMetrics)
    (creator_tx_count : ℕ) (creator_balance_wei : ℕ) (creator_address : String)
    (name symbol : String) (total_supply : ℕ) : ℚ × List String :=
  let st : ℚ × List String := (0.0, [])
  let st := ruleStep ca.has_mint_function
    "Contract has mint function - inflation risk" 0.2 st
  let st := ruleStep (!ca.ownership_renounced)
    "Ownership not renounced - centralization risk" 0.3 st
  let st := ruleStep (decide (ca.honeypot_risk > 0.5))
    "High honeypot risk detected" 0.4 st
  let st := ruleStep (!ca.contract_verified) "Contract not verified" 0.2 st
  let st := ruleStep (decide (holderGetConc holder > 0.8))
    "High holder concentration" 0.3 st
  let st := ruleStep (decide (holderGetUnique holder < 10))
    "Very few holders" 0.2 st
  let social_data := check_social_signals socialOk
  let st := ruleStep (!socialGetWebsite social_data)
    "No official website found" 0.1 st
  let st := ruleStep (decide (socialGetTwitter social_data < 100))
    "Low social media presence" 0.1 st
  let st := ruleStep (decide (tradeGetWash trading > 0.7))
    "Suspected wash trading" 0.3 st
  let st := ruleStep (tradeGetBot trading)
    "Bot trading activity detected" 0.2 st
  let st := ruleStep (decide (creator_tx_count < 5))
    "New/low-activity creator address" 0.3 st
  let st := ruleStep (decide (creator_balance_wei < 10 ^ 16))
    "Creator has very low ETH balance" 0.2 st
  let st := ruleStep (known_scammer_addresses.contains (lowerStr creator_address))
    "Creator address flagged as scammer" 0.8 st
  let st := suspiciousLoop name symbol suspicious_patterns st
  let st := legitLoop name symbol legitimate_patterns st
  let st := supplyStep total_supply st
  (min st.1 1.0, st.2)

/-- The complete list of factor texts `comprehensive_analysis` can emit. -/
def risk_factor_texts : List String :=
  ["Contract has mint function - inflation risk",
   "Ownership not renounced - centralization risk",
   "High honeypot risk detected",
   "Contract not verified",
   "High holder concentration",
   "Very few holders",
   "No official website found",
   "Low social media presence",
   "Suspected wash trading",
   "Bot trading activity detected",
   "New/low-activity creator address",
   "Creator has very low ETH balance",
   "Creator address flagged as scammer",
   "Suspicious name/symbol pattern",
   "Extremely high token supply",
   "Very high token supply"]

/-- True when `patSearch` accepts `name` or `symbol` for some legitimate family:
the condition under which the mitigant loop fires at all. -/
def legitAnyMatch (name symbol : String) : Bool :=
  legitimate_patterns.any fun p => patSearch p name || patSearch p symbol

/-- True when `patSearch` accepts `name` or `symbol` for some suspicious family:
the condition under which the suspicious-name loop fires at all. -/
def suspiciousAnyMatch (name symbol : String) : Bool :=
  suspicious_patterns.any fun p => patSearch p name || patSearch p symbol

/-! ## `EnhancedTokenMonitor.analyze_contract_risk_enhanced` (lines 160-243) -/

/-- Results of the web3 lookups inside the inner `try` block of
`analyze_contract_risk_enhanced`. -/
structure Web3Lookup where
  code_hex : String
  creator_tx_count : ℕ
  creator_balance_wei : ℕ
deriving DecidableEq, Repr

/-- The risk-level thresholds of `analyze_contract_risk_enhanced`
(lines 234-241), applied to the clamped score. -/
def risk_level_of (risk_score : ℚ) : String :=
  if risk_score ≥ 0.8 then "CRITICAL"
  else if risk_score ≥ 0.6 then "HIGH"
  else if risk_score ≥ 0.4 then "MEDIUM"
  else "LOW"

/-- Embeds `EnhancedTokenMonitor.analyze_contract_risk_enhanced` (lines 160-243).
`outerFail` models the outer `except` firing (at the opening dictionary
accesses, before any factor is appended): the factor list is replaced by the
sentinel and the score is reset to 0.5.  `verified` / `source_available` are
the Etherscan dictionary entries, `hasWeb3` whether the chain has a web3
client, and `w3` the inner `try` block's lookups (`.error` models a web3
exception caught by the inner `except`).  Returns
(clamped score, risk level, factors). -/
def analyze_contract_risk_enhanced (outerFail : Bool)
    (verified source_available : Bool) (hasWeb3 : Bool)
    (w3 : Except String Web3Lookup) : ℚ × String × List String :=
  let st : ℚ × List String :=
    if outerFail then (0.5, ["❌ Analysis failed"])
    else
      let st : ℚ × List String := (0.0, [])
      let st := if verified then (st.1 - 0.2, st.2 ++ ["✅ Contract verified on Etherscan"])
                else (st.1 + 0.3, st.2 ++ ["❌ Contract not verified"])
      let st := if source_available then (st.1 - 0.1, st.2 ++ ["✅ Source code publicly available"])
                else (st.1 + 0.2, st.2 ++ ["⚠️ Source code not available"])
      if hasWeb3 then
        match w3 with
        | .error _ => (st.1 + 0.1, st.2 ++ ["⚠️ Unable to analyze contract code"])
        | .ok info =>
            let st := if containsS "40c10f19" info.code_hex then
                (st.1 + 0.3, st.2 ++ ["⚠️ Contract has mint function"]) else st
            let st := if containsS "8456cb59" info.code_hex then
                (st.1 + 0.2, st.2 ++ ["⚠️ Contract has pause function"]) else st
            let st := if info.creator_tx_count < 5 then
                (st.1 + 0.3, st.2 ++ ["🆕 New/low-activity creator"])
              else if info.creator_tx_count > 100 then
                (st.1 - 0.1, st.2 ++ ["✅ Experienced creator"])
              else st
            let st := if info.creator_balance_wei < 10 ^ 16 then
                (st.1 + 0.2, st.2 ++ ["💸 Creator has very low ETH balance"])
              else if info.creator_balance_wei > 10 ^ 18 then
                (st.1 - 0.1, st.2 ++ ["💰 Creator has significant ETH balance"])
              else st
            st
      else st
  let risk_score := max 0.0 (min 1.0 st.1)
  (risk_score, risk_level_of risk_score, st.2)

/-! ## `EnhancedTokenMonitor.is_actual_token` (lines 481-536) -/

/-- The ERC-20 selector table of `is_actual_token`, keys as written in the
source (with `0x` prefix; the lookup strips it): `balanceOf`, `transfer`,
`approve`, `allowance`, `totalSupply`, `name`, `symbol`, `decimals`. -/
def erc20_signatures : List String :=
  ["0x70a08231", "0xa9059cbb", "0x095ea7b3", "0xdd62ed3e",
   "0x18160ddd", "0x06fdde03", "0x95d89b41", "0x313ce567"]

/-- The `erc20_functions_found` counter: how many selectors occur (with the
`0x` prefix removed, `sig[2:]`) in the hex dump. -/
def erc20Count (code_hex : String) : ℕ :=
  erc20_signatures.countP fun sig => containsS (sig.drop 2) code_hex

/-- Embeds `EnhancedTokenMonitor.is_actual_token` (lines 481-536).  `getCode` is the
`web3.eth.get_code` collaborator (outer `try`); `totalSupplyCall` and
`decimalsCall` are the two `eth_call` probes (inner `try`; the second probe
is only issued when the first succeeds, which the nested match mirrors).
Returns `(is_token, reason)`. -/
def is_actual_token (getCode : Except String (List ℕ))
    (totalSupplyCall decimalsCall : Except String (List ℕ)) : Bool × String :=
  match getCode with
  | .error e => (false, "Contract analysis failed: " ++ strTrunc 50 e)
  | .ok code =>
      let code_hex := bytesToHex code
      let erc20_functions_found := erc20Count code_hex
      if erc20_functions_found < 6 then
        (false, "Only " ++ toString erc20_functions_found ++ "/8 ERC20 functions found")
      else
        match totalSupplyCall with
        | .error e => (false, "ERC20 function calls failed: " ++ strTrunc 50 e)
        | .ok total_supply_call =>
            match decimalsCall with
            | .error e => (false, "ERC20 function calls failed: " ++ strTrunc 50 e)
            | .ok decimals_call =>
                if total_supply_call.length > 0 ∧ decimals_call.length > 0 then
                  (true, "Valid ERC20 token (" ++ toString erc20_functions_found ++ "/8 functions)")
                else (false, "Failed ERC20 function verification")

/-! ## Watcher start/stop endpoints (`enhanced_monitor.py` lines 877-920) -/

/-- A JSON reply together with its HTTP status code. -/
structure ApiReply where
  status : String
  message : String
  http_code : ℕ
deriving DecidableEq, Repr

/-- Embeds `start_enhanced_monitoring` (lines 877-905): acts on the watcher flag
`monitor.monitoring`; returns the reply and the new flag value. -/
def start_enhanced_monitoring (monitoring : Bool) : ApiReply × Bool :=
  if monitoring then
    ({ status := "error", message := "Enhanced monitoring is already running",
       http_code := 400 }, monitoring)
  else
    ({ status := "success",
       message := "🔍 Enhanced monitoring started with Etherscan integration!",
       http_code := 200 }, true)

/-- Embeds `stop_enhanced_monitoring` (lines 907-920). -/
def stop_enhanced_monitoring (monitoring : Bool) : ApiReply × Bool :=
  if !monitoring then
    ({ status := "error", message := "Enhanced monitoring is not running",
       http_code := 400 }, monitoring)
  else
    ({ status := "success", message := "Enhanced monitoring stopped",
       http_code := 200 }, false)


/-! ## Example inputs used by concrete witnesses -/

/-- A `ContractAnalysis` with a mint function, un-renounced ownership, zero
honeypot risk and a verified contract (the end-to-end example input). -/
def exampleCA : ContractAnalysis :=
  { has_mint_function := true, has_burn_function := false,
    has_pause_function := false, ownership_renounced := false,
    liquidity_locked := false, max_transaction_limit := none,
    max_wallet_limit := none, honeypot_risk := 0.0,
    contract_verified := true, proxy_contract := false }

/-- Bytecode consisting of exactly five ERC-20 selectors
(`balanceOf`, `transfer`, `approve`, `allowance`, `totalSupply`). -/
def fiveSelectorCode : List ℕ :=
  [0x70, 0xa0, 0x82, 0x31, 0xa9, 0x05, 0x9c, 0xbb, 0x09, 0x5e, 0xa7, 0xb3,
   0xdd, 0x62, 0xed, 0x3e, 0x18, 0x16, 0x0d, 0xdd]

/-- Bytecode consisting of exactly the eight canonical ERC-20 selectors. -/
def eightSelectorCode : List ℕ :=
  [0x70, 0xa0, 0x82, 0x31, 0xa9, 0x05, 0x9c, 0xbb, 0x09, 0x5e, 0xa7, 0xb3,
   0xdd, 0x62, 0xed, 0x3e, 0x18, 0x16, 0x0d, 0xdd, 0x06, 0xfd, 0xde, 0x03,
   0x95, 0xd8, 0x9b, 0x41, 0x31, 0x3c, 0xe5, 0x67]

/-! ## Shared lemmas about the scoring steps -/

lemma socialGetWebsite_false (ok : Bool) :
    socialGetWebsite (check_social_signals ok) = false := by
  cases ok <;> rfl

lemma socialGetTwitter_zero (ok : Bool) :
    socialGetTwitter (check_social_signals ok) = 0 := by
  cases ok <;> rfl

lemma ruleStep_fst_le (c : Bool) (t : String) (w : ℚ) (st : ℚ × List String)
    (hw : 0 ≤ w) : st.1 ≤ (ruleStep c t w st).1 := by
  unfold ruleStep
  split
  · simp only
    linarith
  · exact le_rfl

lemma ruleStep_snd_cases (c : Bool) (t x : String) (w : ℚ) (st : ℚ × List String)
    (h : x ∈ (ruleStep c t w st).2) : x ∈ st.2 ∨ x = t := by
  unfold ruleStep at h
  split at h
  · simp only [List.mem_append, List.mem_singleton] at h
    exact h
  · exact Or.inl h

lemma suspiciousLoop_eq (name symbol : String) (ps : List (List String)) :
    ∀ st, suspiciousLoop name symbol ps st =
      if ps.any (fun p => patSearch p name || patSearch p symbol) then
        (st.1 + 0.2, st.2 ++ ["Suspicious name/symbol pattern"])
      else st := by
  induction ps with
  | nil => intro st; simp [suspiciousLoop]
  | cons p ps ih =>
      intro st
      simp only [suspiciousLoop, List.any_cons]
      by_cases h : (patSearch p name || patSearch p symbol) = true
      · rw [if_pos h]
        simp [h]
      · rw [if_neg h, ih st]
        simp only [Bool.not_eq_true] at h
        simp [h]

lemma legitLoop_eq (name symbol : String) (ps : List (List String)) :
    ∀ st, legitLoop name symbol ps st =
      if ps.any (fun p => patSearch p name || patSearch p symbol) then
        (st.1 - 0.2, st.2)
      else st := by
  induction ps with
  | nil => intro st; simp [legitLoop]
  | cons p ps ih =>
      intro st
      simp only [legitLoop, List.any_cons]
      by_cases h : (patSearch p name || patSearch p symbol) = true
      · rw [if_pos h]
        simp [h]
      · rw [if_neg h, ih st]
        simp only [Bool.not_eq_true] at h
        simp [h]

lemma legitLoop_snd (name symbol : String) (ps : List (List String))
    (st : ℚ × List String) : (legitLoop name symbol ps st).2 = st.2 := by
  rw [legitLoop_eq]
  split <;> rfl

lemma legitLoop_fst_ge (name symbol : String) (ps : List (List String))
    (st : ℚ × List String) : st.1 - 0.2 ≤ (legitLoop name symbol ps st).1 := by
  rw [legitLoop_eq]
  split
  · exact le_rfl
  · linarith

lemma suspiciousLoop_fst_le (name symbol : String) (ps : List (List String))
    (st : ℚ × List String) : st.1 ≤ (suspiciousLoop name symbol ps st).1 := by
  rw [suspiciousLoop_eq]
  split
  · simp only
    linarith
  · exact le_rfl

lemma suspiciousLoop_snd_cases (name symbol x : String) (ps : List (List String))
    (st : ℚ × List String) (h : x ∈ (suspiciousLoop name symbol ps st).2) :
    x ∈ st.2 ∨ x = "Suspicious name/symbol pattern" := by
  rw [suspiciousLoop_eq] at h
  split at h
  · simp only [List.mem_append, List.mem_singleton] at h
    exact h
  · exact Or.inl h

lemma supplyStep_fst_le (n : ℕ) (st : ℚ × List String) :
    st.1 ≤ (supplyStep n st).1 := by
  unfold supplyStep
  split
  · simp only
    linarith
  · split
    · simp only
      linarith
    · exact le_rfl

lemma supplyStep_snd_cases (n : ℕ) (x : String) (st : ℚ × List String)
    (h : x ∈ (supplyStep n st).2) :
    x ∈ st.2 ∨ x = "Extremely high token supply" ∨ x = "Very high token supply" := by
  unfold supplyStep at h
  split at h
  · simp only [List.mem_append, List.mem_singleton] at h
    tauto
  · split at h
    · simp only [List.mem_append, List.mem_singleton] at h
      tauto
    · exact Or.inl h

lemma socialSteps_fst (socialOk : Bool) (st : ℚ × List String) :
    (ruleStep (decide (socialGetTwitter (check_social_signals socialOk) < 100))
      "Low social media presence" 0.1
      (ruleStep (!socialGetWebsite (check_social_signals socialOk))
        "No official website found" 0.1 st)).1 = st.1 + 0.2 := by
  rw [socialGetWebsite_false, socialGetTwitter_zero]
  norm_num [ruleStep]
  ring

lemma socialSteps_snd_mem (socialOk : Bool) (st : ℚ × List String) :
    "No official website found" ∈
      (ruleStep (decide (socialGetTwitter (check_social_signals socialOk) < 100))
        "Low social media presence" 0.1
        (ruleStep (!socialGetWebsite (check_social_signals socialOk))
          "No official website found" 0.1 st)).2 := by
  rw [socialGetWebsite_false, socialGetTwitter_zero]
  norm_num [ruleStep]

/-- C9: `start()` on a `RUNNING` watcher is rejected with an "already running"
condition and leaves the flag `RUNNING`; `stop()` on a `STOPPED` watcher is
rejected with a "not running" condition and leaves the flag `STOPPED`; and
`start()` followed by `stop()` from `STOPPED` returns the watcher to
`STOPPED`. -/
theorem watcher_start_stop_transitions :
    start_enhanced_monitoring true =
      ({ status := "error", message := "Enhanced monitoring is already running",
         http_code := 400 }, true) ∧
    containsS "already running" (start_enhanced_monitoring true).1.message = true ∧
    stop_enhanced_monitoring false =
      ({ status := "error", message := "Enhanced monitoring is not running",
         http_code := 400 }, false) ∧
    containsS "not running" (stop_enhanced_monitoring false).1.message = true ∧
    (start_enhanced_monitoring false).1.status = "success" ∧
    (start_enhanced_monitoring false).2 = true ∧
    stop_enhanced_monitoring (start_enhanced_monitoring false).2 =
      ({ status := "success", message := "Enhanced monitoring stopped",
         http_code := 200 }, false) := by
  refine ⟨rfl, by decide, rfl, by decide, rfl, rfl, rfl⟩

/-- C4: the risk level derived from the clamped score is CRITICAL on
`[0.8, ∞)`, HIGH on `[0.6, 0.8)`, MEDIUM on `[0.4, 0.6)` and LOW below 0.4;
the six boundary values map as stated; and
`analyze_contract_risk_enhanced` returns exactly this function of its
clamped score. -/
theorem risk_level_thresholds :
    (∀ s : ℚ, 0.8 ≤ s → risk_level_of s = "CRITICAL") ∧
    (∀ s : ℚ, 0.6 ≤ s → s < 0.8 → risk_level_of s = "HIGH") ∧
    (∀ s : ℚ, 0.4 ≤ s → s < 0.6 → risk_level_of s = "MEDIUM") ∧
    (∀ s : ℚ, s < 0.4 → risk_level_of s = "LOW") ∧
    risk_level_of 0.8 = "CRITICAL" ∧ risk_level_of 0.79999 = "HIGH" ∧
    risk_level_of 0.6 = "HIGH" ∧ risk_level_of 0.59999 = "MEDIUM" ∧
    risk_level_of 0.4 = "MEDIUM" ∧ risk_level_of 0.39999 = "LOW" ∧
    (∀ outerFail verified source_available hasWeb3 w3,
      (analyze_contract_risk_enhanced outerFail verified source_available
          hasWeb3 w3).2.1 =
        risk_level_of (analyze_contract_risk_enhanced outerFail verified
          source_available hasWeb3 w3).1) := by
  refine ⟨?_, ?_, ?_, ?_, ?_, ?_, ?_, ?_, ?_, ?_, ?_⟩
  · intro s h
    unfold risk_level_of
    rw [if_pos h]
  · intro s h1 h2
    unfold risk_level_of
    rw [if_neg (by linarith), if_pos h1]
  · intro s h1 h2
    unfold risk_level_of
    rw [if_neg (by linarith), if_neg (by linarith), if_pos h1]
  · intro s h
    unfold risk_level_of
    rw [if_neg (by linarith), if_neg (by linarith), if_neg (by linarith)]
  · norm_num [risk_level_of]
  · norm_num [risk_level_of]
  · norm_num [risk_level_of]
  · norm_num [risk_level_of]
  · norm_num [risk_level_of]
  · norm_num [risk_level_of]
  · intro outerFail verified source_available hasWeb3 w3
    rfl

/-- Witness for C4: the theorem applied at the concrete score 0.7, which lies
in `[0.6, 0.8)` and is therefore HIGH. -/
theorem risk_level_thresholds_witness : risk_level_of 0.7 = "HIGH" :=
  risk_level_thresholds.2.1 0.7 (by norm_num) (by norm_num)

/-- C5: `analyze_contract_code` is total (it returns a `ContractAnalysis` for
every input); when the bytecode fetch fails it returns the zero-signal
analysis — all boolean flags false, honeypot risk 0.0, unverified — and when
only the verification service fails the verified flag is false. -/
theorem analyze_contract_code_fail_neutral :
    (∀ e svc, analyze_contract_code (.error e) svc = zeroContractAnalysis) ∧
    (∀ code e,
      (analyze_contract_code (.ok code) (.error e)).contract_verified = false) ∧
    zeroContractAnalysis.has_mint_function = false ∧
    zeroContractAnalysis.has_burn_function = false ∧
    zeroContractAnalysis.has_pause_function = false ∧
    zeroContractAnalysis.ownership_renounced = false ∧
    zeroContractAnalysis.liquidity_locked = false ∧
    zeroContractAnalysis.proxy_contract = false ∧
    zeroContractAnalysis.honeypot_risk = 0.0 ∧
    zeroContractAnalysis.contract_verified = false := by
  refine ⟨fun e svc => rfl, fun code e => rfl, rfl, rfl, rfl, rfl, rfl, rfl, rfl, rfl⟩

lemma honeypotLoop_concrete (code : List ℕ) (r : ℚ) :
    honeypotLoop honeypot_patterns code r =
      r + (if containsB [0x8d, 0xa5, 0xcb, 0x5b, 0x00, 0x00, 0x00, 0x00] code
             then (0.3 : ℚ) else 0) +
        (if containsB [0x63, 0x91, 0x3d, 0x29, 0x14] code then (0.3 : ℚ) else 0) := by
  simp only [honeypot_patterns, honeypotLoop]
  split_ifs <;> ring

lemma analyze_honeypot_risk_closed (code : List ℕ) :
    analyze_honeypot_risk code =
      (if containsB [0x8d, 0xa5, 0xcb, 0x5b, 0x00, 0x00, 0x00, 0x00] code
         then (0.3 : ℚ) else 0) +
      (if containsB [0x63, 0x91, 0x3d, 0x29, 0x14] code then (0.3 : ℚ) else 0) +
      (if code.length > 50000 then (0.2 : ℚ) else 0) := by
  unfold analyze_honeypot_risk
  rw [honeypotLoop_concrete]
  split_ifs <;> rw [min_eq_left (by norm_num)] <;> ring

/-- C6: for every bytecode, the honeypot risk equals 0.3 per matched
fingerprint plus 0.2 for bytecode longer than 50 000 bytes, the total
clamped to `[0, 1]`. -/
theorem honeypot_risk_additive (code : List ℕ) :
    analyze_honeypot_risk code =
      min (((honeypot_patterns.countP fun p => containsB p code : ℕ) : ℚ) * 0.3 +
        (if code.length > 50000 then (0.2 : ℚ) else 0)) 1.0 ∧
    0 ≤ analyze_honeypot_risk code ∧ analyze_honeypot_risk code ≤ 1 := by
  have hc := analyze_honeypot_risk_closed code
  have hcount :
      ((honeypot_patterns.countP fun p => containsB p code : ℕ) : ℚ) * 0.3 =
        (if containsB [0x8d, 0xa5, 0xcb, 0x5b, 0x00, 0x00, 0x00, 0x00] code
           then (0.3 : ℚ) else 0) +
        (if containsB [0x63, 0x91, 0x3d, 0x29, 0x14] code then (0.3 : ℚ) else 0) := by
    simp only [honeypot_patterns, List.countP_cons, List.countP_nil]
    split_ifs <;> norm_num
  refine ⟨?_, ?_, ?_⟩
  · rw [hc, hcount, min_eq_left (by split_ifs <;> norm_num)]
  · rw [hc]
    split_ifs <;> norm_num
  · rw [hc]
    split_ifs <;> norm_num

/-- C10: the honeypot risk never exceeds 0.8 (so the clamp at 1.0 is never
active and the unclamped sum is returned), and it exceeds 0.5 exactly when
both known fingerprints match. -/
theorem honeypot_risk_le_and_both_patterns (code : List ℕ) :
    analyze_honeypot_risk code ≤ 0.8 ∧
    (0.5 < analyze_honeypot_risk code ↔
      (containsB [0x8d, 0xa5, 0xcb, 0x5b, 0x00, 0x00, 0x00, 0x00] code = true ∧
       containsB [0x63, 0x91, 0x3d, 0x29, 0x14] code = true)) ∧
    analyze_honeypot_risk code =
      (if code.length > 50000 then honeypotLoop honeypot_patterns code 0.0 + 0.2
       else honeypotLoop honeypot_patterns code 0.0) := by
  have hc := analyze_honeypot_risk_closed code
  refine ⟨?_, ?_, ?_⟩
  · rw [hc]
    split_ifs <;> norm_num
  · rw [hc]
    by_cases h1 : containsB [0x8d, 0xa5, 0xcb, 0x5b, 0x00, 0x00, 0x00, 0x00] code = true <;>
      by_cases h2 : containsB [0x63, 0x91, 0x3d, 0x29, 0x14] code = true <;>
      by_cases h3 : code.length > 50000 <;>
      simp [h1, h2, h3] <;> norm_num
  · unfold analyze_honeypot_risk
    rw [honeypotLoop_concrete]
    split_ifs <;> rw [min_eq_left (by norm_num)]

/-- C1: the score returned by `comprehensive_analysis` lies in `[0, 1]` for
every combination of inputs.  (Lower bound: the social-signal placeholders
always contribute +0.1 + 0.1, which offsets the single −0.2 the
legitimate-name mitigant can subtract; every other rule is non-negative.
Upper bound: the final `min(risk_score, 1.0)`.) -/
theorem comprehensive_score_in_unit_interval (ca : ContractAnalysis)
    (holder : Option HolderMetrics) (socialOk : Bool)
    (trading : Option TradingMetrics)
    (creator_tx_count creator_balance_wei : ℕ)
    (creator_address name symbol : String) (total_supply : ℕ) :
    0 ≤ (comprehensive_analysis ca holder socialOk trading creator_tx_count
      creator_balance_wei creator_address name symbol total_supply).1 ∧
    (comprehensive_analysis ca holder socialOk trading creator_tx_count
      creator_balance_wei creator_address name symbol total_supply).1 ≤ 1 := by
  constructor
  · simp only [comprehensive_analysis]
    refine le_min ?_ (by norm_num)
    refine le_trans ?_ (supplyStep_fst_le _ _)
    refine le_trans ?_ (legitLoop_fst_ge _ _ _ _)
    rw [le_sub_iff_add_le, zero_add]
    refine le_trans ?_ (suspiciousLoop_fst_le _ _ _ _)
    refine le_trans ?_ (ruleStep_fst_le _ _ _ _ (by norm_num))
    refine le_trans ?_ (ruleStep_fst_le _ _ _ _ (by norm_num))
    refine le_trans ?_ (ruleStep_fst_le _ _ _ _ (by norm_num))
    refine le_trans ?_ (ruleStep_fst_le _ _ _ _ (by norm_num))
    refine le_trans ?_ (ruleStep_fst_le _ _ _ _ (by norm_num))
    rw [socialSteps_fst]
    have h6 : (0 : ℚ) ≤ (ruleStep (decide (holderGetUnique holder < 10))
        "Very few holders" 0.2
        (ruleStep (decide (holderGetConc holder > 0.8))
          "High holder concentration" 0.3
          (ruleStep (!ca.contract_verified) "Contract not verified" 0.2
            (ruleStep (decide (ca.honeypot_risk > 0.5))
              "High honeypot risk detected" 0.4
              (ruleStep (!ca.ownership_renounced)
                "Ownership not renounced - centralization risk" 0.3
                (ruleStep ca.has_mint_function
                  "Contract has mint function - inflation risk" 0.2
                  ((0.0 : ℚ), ([] : List String)))))))).1 := by
      refine le_trans ?_ (ruleStep_fst_le _ _ _ _ (by norm_num))
      refine le_trans ?_ (ruleStep_fst_le _ _ _ _ (by norm_num))
      refine le_trans ?_ (ruleStep_fst_le _ _ _ _ (by norm_num))
      refine le_trans ?_ (ruleStep_fst_le _ _ _ _ (by norm_num))
      refine le_trans ?_ (ruleStep_fst_le _ _ _ _ (by norm_num))
      refine le_trans ?_ (ruleStep_fst_le _ _ _ _ (by norm_num))
      norm_num
    linarith
  · simp only [comprehensive_analysis]
    exact le_trans (min_le_right _ _) (by norm_num)

lemma ruleStep_snd_mem (c : Bool) (t x : String) (w : ℚ) (st : ℚ × List String)
    (h : x ∈ st.2) : x ∈ (ruleStep c t w st).2 := by
  unfold ruleStep
  split
  · simp only [List.mem_append]
    exact Or.inl h
  · exact h

lemma suspiciousLoop_snd_mem (name symbol x : String) (ps : List (List String))
    (st : ℚ × List String) (h : x ∈ st.2) :
    x ∈ (suspiciousLoop name symbol ps st).2 := by
  rw [suspiciousLoop_eq]
  split
  · simp only [List.mem_append]
    exact Or.inl h
  · exact h

lemma supplyStep_snd_mem (n : ℕ) (x : String) (st : ℚ × List String)
    (h : x ∈ st.2) : x ∈ (supplyStep n st).2 := by
  unfold supplyStep
  split
  · simp only [List.mem_append]
    exact Or.inl h
  · split
    · simp only [List.mem_append]
      exact Or.inl h
    · exact h

lemma supplyStep_snd_congr (n : ℕ) (st st' : ℚ × List String)
    (h : st.2 = st'.2) : (supplyStep n st).2 = (supplyStep n st').2 := by
  unfold supplyStep
  split_ifs <;> simp [h]

lemma comprehensive_analysis_example_eval :
    comprehensive_analysis exampleCA (some ⟨500, 1000, 0.0⟩) true
      (some ⟨0, 0, 0.0, false⟩) 200 (10 ^ 18) "0xabc" "TokenA" "TKA" (10 ^ 9) =
    (0.7, ["Contract has mint function - inflation risk",
           "Ownership not renounced - centralization risk",
           "No official website found",
           "Low social media presence"]) := by
  have hs : ∀ st, suspiciousLoop "TokenA" "TKA" suspicious_patterns st = st := by
    intro st
    simp only [suspicious_patterns, suspiciousLoop]
    rw [if_neg (by decide), if_neg (by decide), if_neg (by decide), if_neg (by decide)]
  have hl : ∀ st, legitLoop "TokenA" "TKA" legitimate_patterns st = st := by
    intro st
    simp only [legitimate_patterns, legitLoop]
    rw [if_neg (by decide), if_neg (by decide), if_neg (by decide)]
  have hk : ¬(lowerStr "0xabc" ∈ known_scammer_addresses) := by decide
  norm_num [comprehensive_analysis, ruleStep, exampleCA, check_social_signals,
    socialGetWebsite, socialGetTwitter, holderGetConc, holderGetUnique,
    tradeGetWash, tradeGetBot, supplyStep, hs, hl, hk]

/-- C2 (counterexample): at the end-to-end example input — mint present,
ownership not renounced, honeypot risk 0, verified contract, concentration 0,
500 holders, no wash trading, no bots, creator with 200 transactions and a
balance of one native token, supply 10⁹, neutral name/symbol — the engine
returns 0.70, not ≈ 0.50, and the threshold mapping yields HIGH, not
MEDIUM (the social-signal placeholders always add the +0.1 no-website and
+0.1 low-social deltas). -/
theorem example_input_scores_high_not_medium :
    (comprehensive_analysis exampleCA (some ⟨500, 1000, 0.0⟩) true
      (some ⟨0, 0, 0.0, false⟩) 200 (10 ^ 18) "0xabc" "TokenA" "TKA" (10 ^ 9)).1
      = 0.7 ∧
    (comprehensive_analysis exampleCA (some ⟨500, 1000, 0.0⟩) true
      (some ⟨0, 0, 0.0, false⟩) 200 (10 ^ 18) "0xabc" "TokenA" "TKA" (10 ^ 9)).1
      ≠ 0.5 ∧
    risk_level_of (comprehensive_analysis exampleCA (some ⟨500, 1000, 0.0⟩) true
      (some ⟨0, 0, 0.0, false⟩) 200 (10 ^ 18) "0xabc" "TokenA" "TKA" (10 ^ 9)).1
      ≠ "MEDIUM" := by
  rw [comprehensive_analysis_example_eval]
  refine ⟨by norm_num, by norm_num, ?_⟩
  have : risk_level_of (0.7, ["Contract has mint function - inflation risk",
      "Ownership not renounced - centralization risk",
      "No official website found", "Low social media presence"]).1 = "HIGH" := by
    norm_num [risk_level_of]
  rw [this]
  decide

/-- C2 (amended): at the end-to-end example input the engine returns score
0.70 (0.20 mint + 0.30 unrenounced + 0.10 no-website + 0.10 low-social) with
exactly those four factors, and the threshold mapping yields HIGH. -/
theorem example_input_score_and_level :
    comprehensive_analysis exampleCA (some ⟨500, 1000, 0.0⟩) true
      (some ⟨0, 0, 0.0, false⟩) 200 (10 ^ 18) "0xabc" "TokenA" "TKA" (10 ^ 9) =
    (0.7, ["Contract has mint function - inflation risk",
           "Ownership not renounced - centralization risk",
           "No official website found",
           "Low social media presence"]) ∧
    risk_level_of 0.7 = "HIGH" :=
  ⟨comprehensive_analysis_example_eval, by norm_num [risk_level_of]⟩

/-- C7: the legitimate-name mitigant lowers the score by exactly 0.20 and
applies at most once (the loop short-circuits after the first matching
family), and it never appends a factor string — the mitigant loop leaves the
factor list untouched for every input, and the engine's factor list depends
on the name/symbol only through the suspicious-name matcher. -/
theorem legit_name_mitigant :
    (∀ name symbol st, legitAnyMatch name symbol = true →
      legitLoop name symbol legitimate_patterns st = (st.1 - 0.2, st.2)) ∧
    (∀ name symbol ps st, (legitLoop name symbol ps st).2 = st.2) ∧
    (∀ ca holder socialOk trading tx bal addr supply name symbol name2 symbol2,
      suspiciousAnyMatch name symbol = suspiciousAnyMatch name2 symbol2 →
      (comprehensive_analysis ca holder socialOk trading tx bal addr
        name symbol supply).2 =
      (comprehensive_analysis ca holder socialOk trading tx bal addr
        name2 symbol2 supply).2) := by
  refine ⟨?_, ?_, ?_⟩
  · intro name symbol st h
    rw [legitLoop_eq]
    exact if_pos h
  · intro name symbol ps st
    exact legitLoop_snd name symbol ps st
  · intro ca holder socialOk trading tx bal addr supply name symbol name2 symbol2 h
    simp only [suspiciousAnyMatch] at h
    simp only [comprehensive_analysis, suspiciousLoop_eq, legitLoop_eq, h]
    apply supplyStep_snd_congr
    split_ifs <;> rfl

/-- Witness for C7: "UniswapV3"/"UNI" matches the first legitimate family, and
the mitigant loop subtracts exactly 0.2 from the score while leaving the
factor list unchanged. -/
theorem legit_name_mitigant_witness :
    legitAnyMatch "UniswapV3" "UNI" = true ∧
    legitLoop "UniswapV3" "UNI" legitimate_patterns
        (0.5, ["Contract not verified"]) = (0.3, ["Contract not verified"]) := by
  refine ⟨by decide, ?_⟩
  rw [legit_name_mitigant.1 "UniswapV3" "UNI" (0.5, ["Contract not verified"])
    (by decide)]
  norm_num

/-- C8: whenever `comprehensive_analysis` returns a positive score its factor
list is non-empty (in fact the placeholder no-website factor is always
present), and when the monitor's risk analysis itself fails it records
exactly the single sentinel factor with score 0.5 and level MEDIUM. -/
theorem nonzero_score_has_factors :
    (∀ ca holder socialOk trading tx bal addr name symbol supply,
      0 < (comprehensive_analysis ca holder socialOk trading tx bal addr
        name symbol supply).1 →
      (comprehensive_analysis ca holder socialOk trading tx bal addr
        name symbol supply).2 ≠ []) ∧
    (∀ verified source_available hasWeb3 w3,
      analyze_contract_risk_enhanced true verified source_available hasWeb3 w3 =
        (0.5, "MEDIUM", ["❌ Analysis failed"])) := by
  constructor
  · intro ca holder socialOk trading tx bal addr name symbol supply _
    simp only [comprehensive_analysis]
    apply List.ne_nil_of_mem
    apply supplyStep_snd_mem
    rw [legitLoop_snd]
    apply suspiciousLoop_snd_mem
    apply ruleStep_snd_mem
    apply ruleStep_snd_mem
    apply ruleStep_snd_mem
    apply ruleStep_snd_mem
    apply ruleStep_snd_mem
    exact socialSteps_snd_mem socialOk _
  · intro verified source_available hasWeb3 w3
    norm_num [analyze_contract_risk_enhanced, risk_level_of, min_def, max_def]

/-- Witness for C8: at the end-to-end example input the score 0.7 is positive
and the factor list is non-empty. -/
theorem nonzero_score_has_factors_witness :
    (comprehensive_analysis exampleCA (some ⟨500, 1000, 0.0⟩) true
      (some ⟨0, 0, 0.0, false⟩) 200 (10 ^ 18) "0xabc" "TokenA" "TKA"
      (10 ^ 9)).2 ≠ [] :=
  nonzero_score_has_factors.1 _ _ _ _ _ _ _ _ _ _
    (by rw [comprehensive_analysis_example_eval]; norm_num)

/-- C3: the token classifier returns `false` with a reason citing "N/8"
whenever fewer than 6 of the 8 canonical ERC-20 selectors occur in the
bytecode; it returns `true` when at least 6 selectors are present and both
live probes return non-empty data; and a failure of either probe returns
`false` with the error truncated to 50 characters inside the reason. -/
theorem is_actual_token_classification :
    (∀ code ts dec, erc20Count (bytesToHex code) < 6 →
      is_actual_token (.ok code) ts dec =
        (false, "Only " ++ toString (erc20Count (bytesToHex code)) ++
          "/8 ERC20 functions found")) ∧
    (∀ code tsb decb, 6 ≤ erc20Count (bytesToHex code) →
      tsb.length > 0 → decb.length > 0 →
      is_actual_token (.ok code) (.ok tsb) (.ok decb) =
        (true, "Valid ERC20 token (" ++ toString (erc20Count (bytesToHex code)) ++
          "/8 functions)")) ∧
    (∀ code e dec, 6 ≤ erc20Count (bytesToHex code) →
      is_actual_token (.ok code) (.error e) dec =
        (false, "ERC20 function calls failed: " ++ strTrunc 50 e)) ∧
    (∀ code tsb e, 6 ≤ erc20Count (bytesToHex code) →
      is_actual_token (.ok code) (.ok tsb) (.error e) =
        (false, "ERC20 function calls failed: " ++ strTrunc 50 e)) := by
  refine ⟨?_, ?_, ?_, ?_⟩
  · intro code ts dec h
    simp only [is_actual_token]
    rw [if_pos h]
  · intro code tsb decb h hts hdec
    simp only [is_actual_token]
    rw [if_neg (not_lt.mpr h), if_pos ⟨hts, hdec⟩]
  · intro code e dec h
    simp only [is_actual_token]
    rw [if_neg (not_lt.mpr h)]
  · intro code tsb e h
    simp only [is_actual_token]
    rw [if_neg (not_lt.mpr h)]

/-- Witness for C3: bytecode with exactly five selectors is rejected with the
"5/8" reason; bytecode with all eight selectors and two successful non-empty
probes is accepted; a failing probe on the same bytecode is rejected with the
truncated error. -/
theorem is_actual_token_classification_witness :
    is_actual_token (.ok fiveSelectorCode) (.ok [0]) (.ok [18]) =
      (false, "Only 5/8 ERC20 functions found") ∧
    containsS "5/8" (is_actual_token (.ok fiveSelectorCode) (.ok [0])
      (.ok [18])).2 = true ∧
    is_actual_token (.ok eightSelectorCode) (.ok [0]) (.ok [18]) =
      (true, "Valid ERC20 token (8/8 functions)") ∧
    is_actual_token (.ok eightSelectorCode) (.error "timeout") (.ok [18]) =
      (false, "ERC20 function calls failed: timeout") := by
  have h5 : erc20Count (bytesToHex fiveSelectorCode) = 5 := by decide
  have h8 : erc20Count (bytesToHex eightSelectorCode) = 8 := by decide
  have e1 : is_actual_token (.ok fiveSelectorCode) (.ok [0]) (.ok [18]) =
      (false, "Only 5/8 ERC20 functions found") := by
    rw [is_actual_token_classification.1 fiveSelectorCode _ _ (by rw [h5]; norm_num),
      h5]
    decide
  have e3 : is_actual_token (.ok eightSelectorCode) (.ok [0]) (.ok [18]) =
      (true, "Valid ERC20 token (8/8 functions)") := by
    rw [is_actual_token_classification.2.1 eightSelectorCode [0] [18]
      (by rw [h8]; norm_num) (by norm_num) (by norm_num), h8]
    decide
  have e4 : is_actual_token (.ok eightSelectorCode) (.error "timeout") (.ok [18]) =
      (false, "ERC20 function calls failed: timeout") := by
    rw [is_actual_token_classification.2.2.1 eightSelectorCode "timeout" _
      (by rw [h8]; norm_num)]
    decide
  exact ⟨e1, by rw [e1]; decide, e3, e4⟩
